import Mathlib

/-!
Verification of the time-series alignment core in
`ml_integration/RNNAEAlignment.py` (class `Alignment`).

The embedding below follows the Python source line by line:

* A pandas `DataFrame` becomes a `DataFrame` structure: a list of column
  names, a list of natural-number time-index values and a row-major grid of
  optional rational cells (`none` models a NaN / missing cell).
* `Alignment.getOverlapData` becomes `getOverlapData`: the outer join of the
  two frames (sorted union of their indices, concatenated columns) followed
  by the source's `iloc[v_min : v_max + 1]` POSITIONAL slice, where
  `v_min`/`v_max` are index VALUES.  `specOverlapData` is the label-based
  restriction the spec describes, stated for comparison.
* `Alignment.upsampling`, `Alignment.downsampling`, `Alignment.get_loaders`,
  `Alignment.RNN_AE` and `Alignment.getResult` become the functions of the
  same names.  Printing and filesystem writes are tracked explicitly;
  a Python exception becomes an `Except` error value.
* The external collaborators (the sklearn `KNNImputer` fill values and the
  recurrent-autoencoder trainer living in the `models` package, which is not
  part of this source tree) are abstracted as function parameters; their
  observable contracts are modelled where the source depends on them.
-/

/-- Errors the Python code can actually raise on the modelled paths.
`unboundLocal` is the `UnboundLocalError` raised by `return result` /
`return data_concat_transform` after the print-only `else` branches;
`skInvalidParameter` is the parameter-validation error raised inside the
external sklearn `KNNImputer` when `n_neighbors < 1`. -/
inductive PyErr where
  | unboundLocal : PyErr
  | skInvalidParameter : PyErr
deriving DecidableEq

/-- A pandas DataFrame: column names, time-index values (one per row) and a
row-major grid of cells; `none` is a missing value (NaN). -/
structure DataFrame where
  cols : List String
  index : List Nat
  data : List (List (Option Rat))
deriving DecidableEq

/-- `x1.index.min()` (the frames handled by `Alignment` have nonempty
indices; the default is irrelevant under that hypothesis). -/
def idxMin (df : DataFrame) : Nat := df.index.min?.getD 0

/-- `x1.index.max()`. -/
def idxMax (df : DataFrame) : Nat := df.index.max?.getD 0

/-- Merge of two ascending index lists, structurally recursive on a fuel
argument that the caller sets to the total length (always sufficient). -/
def mergeIdxAux : Nat → List Nat → List Nat → List Nat
  | 0, _, _ => []
  | _ + 1, [], ys => ys
  | _ + 1, x :: xs, [] => x :: xs
  | n + 1, x :: xs, y :: ys =>
    if x < y then x :: mergeIdxAux n xs (y :: ys)
    else if y < x then y :: mergeIdxAux n (x :: xs) ys
    else x :: mergeIdxAux n xs ys

/-- Sorted union of two ascending index lists: the row index produced by
`pd.concat([x1, x2], axis=1, join='outer')` on sorted inputs. -/
def mergeIdx (a b : List Nat) : List Nat := mergeIdxAux (a.length + b.length) a b

/-- The row of `df` at index value `t`, padded with missing cells when `df`
has no row at `t` (the outer-join fill). -/
def rowAt (df : DataFrame) (t : Nat) : List (Option Rat) :=
  match df.index.findIdx? (fun s => s = t) with
  | some i => (df.data[i]?).getD (List.replicate df.cols.length none)
  | none => List.replicate df.cols.length none

/-- `Alignment.getOverlapData`: outer join of the two frames, then the
source's `data_concat.iloc[v_min : v_max + 1, :]` — a POSITIONAL slice whose
bounds are the index VALUES `v_min = max(min1, min2)` and
`v_max = min(max1, max2)`. -/
def getOverlapData (x1 x2 : DataFrame) : DataFrame :=
  let vmin := max (idxMin x1) (idxMin x2)
  let vmax := min (idxMax x1) (idxMax x2)
  let idx := mergeIdx x1.index x2.index
  let grid := idx.map (fun t => rowAt x1 t ++ rowAt x2 t)
  { cols := x1.cols ++ x2.cols
    index := (idx.drop vmin).take (vmax + 1 - vmin)
    data := (grid.drop vmin).take (vmax + 1 - vmin) }

/-- The Overlap Resolver as the spec words it: the outer join restricted to
the rows whose index VALUE lies in `[max(min1,min2), min(max1,max2)]`
inclusive.  Stated from the spec, for comparison with `getOverlapData`. -/
def specOverlapData (x1 x2 : DataFrame) : DataFrame :=
  let vmin := max (idxMin x1) (idxMin x2)
  let vmax := min (idxMax x1) (idxMax x2)
  let idx := (mergeIdx x1.index x2.index).filter (fun t => decide (vmin ≤ t ∧ t ≤ vmax))
  { cols := x1.cols ++ x2.cols
    index := idx
    data := idx.map (fun t => rowAt x1 t ++ rowAt x2 t) }

/-- The single `config['parameter']` dictionary of the source, with the keys
the three strategies read (`upsampling` reads `method`/`n_neighbors`
unconditionally; `RNN_AE` reads `emb_dim`/`window_size`/`batch_size` and
forwards `epoch`/`mode` to the trainer). -/
structure Param where
  method : String
  n_neighbors : Int
  emb_dim : Nat
  window_size : Nat
  batch_size : Nat
  epoch : Nat
  mode : String
deriving DecidableEq

/-- The `config` dictionary: a strategy identifier plus the parameter set. -/
structure Config where
  model : String
  parameter : Param
deriving DecidableEq

/-- What one strategy call observably does: lines printed, the filesystem
paths existing afterwards, and either a returned frame or a raised error. -/
structure RunOut where
  printed : List String
  fs : List String
  result : Except PyErr DataFrame

/-- Create a path if absent (`os.makedirs(..., exist_ok=True)` /
`torch.save` both leave an existing or fresh entry behind). -/
def insertPath (fs : List String) (p : String) : List String :=
  if p ∈ fs then fs else fs ++ [p]

/-- The observable contract of the external sklearn `KNNImputer` the source
calls (`imputer.fit_transform`): its parameter validation rejects
`n_neighbors < 1`; otherwise it returns one plain (non-missing) row per
input row, keeping every present cell and filling each missing cell with a
library-computed value, abstracted here as `fill row col` — a neighbor
count larger than the available donors is silently reduced, never an
error.  The numeric fill values are outside this repository. -/
def knnImpute (fill : Nat → Nat → Rat) (n : Int) (grid : List (List (Option Rat))) :
    Except PyErr (List (List Rat)) :=
  if n < 1 then .error .skInvalidParameter
  else .ok (grid.enum.map fun p => p.2.enum.map fun q => q.2.getD (fill p.1 q.1))

/-- `data_concat.mean()` for column `j`: the mean over the non-missing cells
of the column, `none` (NaN) when the column is entirely missing. -/
def colMean (df : DataFrame) (j : Nat) : Option Rat :=
  let vs := df.data.filterMap (fun r => (r[j]?).getD none)
  if vs.isEmpty then none else some (vs.sum / (vs.length : Rat))

/-- `data_concat.fillna(data_concat.mean())`: each missing cell becomes its
column's mean; a cell of an all-missing column stays missing (the mean of
such a column is NaN and `fillna` with NaN leaves NaN). -/
def fillnaMean (df : DataFrame) : DataFrame :=
  { df with data := df.data.map (fun r => r.enum.map (fun q => q.2.orElse (fun _ => colMean df q.1))) }

/-- `Alignment.upsampling`.  The `knn` branch wraps the imputer's array in a
fresh `pd.DataFrame(..., columns=data_concat.columns)` — no `index=`
argument, so the result carries the default positional index `0..n-1`.  The
`mean` branch is `fillna(mean)` and keeps the original frame (index
included).  Any other method prints `'not imp'` and then raises
`UnboundLocalError` at `return data_concat_transform`. -/
def upsampling (fill : Nat → Nat → Rat) (data_concat : DataFrame) (p : Param) :
    List String × Except PyErr DataFrame :=
  if p.method = "knn" then
    match knnImpute fill p.n_neighbors data_concat.data with
    | .error e => ([], .error e)
    | .ok grid =>
        ([], .ok { cols := data_concat.cols
                   index := List.range grid.length
                   data := grid.map (fun r => r.map some) })
  else if p.method = "mean" then
    ([], .ok (fillnaMean data_concat))
  else
    (["not imp"], .error .unboundLocal)

/-- `Alignment.downsampling`: `data_concat.dropna(axis=0)` — keep exactly
the rows with no missing cell, index preserved.  No parameters, never
fails. -/
def downsampling (data_concat : DataFrame) : DataFrame :=
  let keep := (data_concat.index.zip data_concat.data).filter (fun p => p.2.all Option.isSome)
  { cols := data_concat.cols
    index := keep.map Prod.fst
    data := keep.map Prod.snd }

/-- The window list `Alignment.get_loaders` materialises: one
`window_size`-row slice per start offset `i` in
`range(len(data) - window_size)`.  Both returned torch `DataLoader`s
enumerate this same in-memory `TensorDataset` (the train view shuffled, the
inference view in order); batching and shuffling live in external torch and
do not change the window content. -/
def get_loaders (data : List (List Rat)) (window_size : Nat) : List (List (List Rat)) :=
  (List.range (data.length - window_size)).map (fun i => (data.drop i).take window_size)

/-- One full enumeration pass of the inference loader (`shuffle=False`):
every pass walks the same materialised window list, so the content does not
depend on the pass number — the sequence is restartable. -/
def inferencePass (data : List (List Rat)) (window_size : Nat) (_epoch : Nat) :
    List (List (List Rat)) :=
  get_loaders data window_size

/-- `data_concat.fillna(0)` followed by `.values`: the numeric grid with
every missing cell replaced by zero. -/
def fillna0 (df : DataFrame) : List (List Rat) :=
  df.data.map (fun r => r.map (fun c => c.getD 0))

/-- Modelled from the spec: `models.train_model.get_representation` is part
of this repository's `models` package, which is not under the source tree.
The spec's trainer contract — "given trained-model handle + windows, return
embeddings", one embedding vector per window — is modelled by mapping the
trained model's inference function `represent` over the window list. -/
def get_representation (represent : List (List Rat) → List Rat)
    (windows : List (List (List Rat))) : List (List Rat) :=
  windows.map represent

/-- The column names `['concat_emb1', ..., 'concat_emb{emb_dim}']` built by
`Alignment.RNN_AE`. -/
def concatEmbCols (emb_dim : Nat) : List String :=
  (List.range emb_dim).map (fun i => "concat_emb" ++ toString (i + 1))

/-- `Alignment.RNN_AE`: fill NaN with zero, build the window loaders, train
(the external `train_model` / `RecurrentAutoencoder` are modelled from the
spec as a black box whose trained inference function is `represent` — they
live in the repository's `models` package, absent from the source tree),
save the trained weights to `./checkpoints/best_model.pt` after
`os.makedirs('./checkpoints', exist_ok=True)`, run inference window by
window, and reassemble a frame with columns `concat_emb1..` and the overlap
index minus its first `window_size` entries.  `fs0` is the set of
filesystem paths existing before the call. -/
def RNN_AE (represent : List (List Rat) → List Rat) (data_concat : DataFrame)
    (p : Param) (fs0 : List String) : RunOut :=
  let filled := fillna0 data_concat
  let windows := get_loaders filled p.window_size
  let fs1 := insertPath (insertPath fs0 "checkpoints") "checkpoints/best_model.pt"
  let output := get_representation represent windows
  let data_index := data_concat.index.drop p.window_size
  { printed := []
    fs := fs1
    result := .ok { cols := concatEmbCols p.emb_dim
                    index := data_index
                    data := output.map (fun r => r.map some) } }

/-- `Alignment.getResult`: dispatch on `config['model']`.  The unmatched
branch prints `'Not Available'` and then executes `return result` with
`result` never assigned, raising `UnboundLocalError`; no frame is returned
and the filesystem is untouched. -/
def getResult (fill : Nat → Nat → Rat) (represent : List (List Rat) → List Rat)
    (config : Config) (data_concat : DataFrame) (fs0 : List String) : RunOut :=
  if config.model = "up" then
    let r := upsampling fill data_concat config.parameter
    { printed := r.1, fs := fs0, result := r.2 }
  else if config.model = "down" then
    { printed := [], fs := fs0, result := .ok (downsampling data_concat) }
  else if config.model = "RNN_AE" then
    RNN_AE represent data_concat config.parameter fs0
  else
    { printed := ["Not Available"], fs := fs0, result := .error .unboundLocal }

/-- Row count of an upsampling result (zero when the call raised). -/
def upRows (fill : Nat → Nat → Rat) (data_concat : DataFrame) (p : Param) : Nat :=
  match (upsampling fill data_concat p).2 with
  | .ok df => df.data.length
  | .error _ => 0

/-- Row index of an upsampling result (empty when the call raised). -/
def upIndex (fill : Nat → Nat → Rat) (data_concat : DataFrame) (p : Param) : List Nat :=
  match (upsampling fill data_concat p).2 with
  | .ok df => df.index
  | .error _ => []

/-- Every index of the overlap table has values from both sources: no cell
is missing. -/
def fullyCoincident (df : DataFrame) : Bool :=
  df.data.all (fun r => r.all Option.isSome)

/-! Concrete fixtures used by the closed evaluations and witnesses. -/

/-- A small overlap table: two rows, one column, no missing cell. -/
def tEx : DataFrame := ⟨["a"], [0, 1], [[some 1], [some 2]]⟩

/-- A parameter set with `emb_dim = 2`, `window_size = 1`, mode `train`. -/
def pEx : Param := ⟨"knn", 2, 2, 1, 1, 1, "train"⟩

/-- A stand-in for the external imputer's fill values. -/
def f0 : Nat → Nat → Rat := fun _ _ => 0

/-- A stand-in for the trained model's inference function: every window is
mapped to a 2-dimensional embedding. -/
def rep0 : List (List Rat) → List Rat := fun _ => [0, 0]

/-- First frame of a disjoint pair: index values 0..2. -/
def dx1 : DataFrame := ⟨["a"], [0, 1, 2], [[some 1], [some 2], [some 3]]⟩

/-- Second frame of a disjoint pair: index values 20..21. -/
def dx2 : DataFrame := ⟨["b"], [20, 21], [[some 4], [some 5]]⟩

/-- First frame of an overlapping pair whose index does not start at 0. -/
def cx1 : DataFrame := ⟨["a"], [10, 11, 12], [[some 1], [some 2], [some 3]]⟩

/-- Second frame of that pair: overlap labels are 11 and 12. -/
def cx2 : DataFrame := ⟨["b"], [11, 12, 13], [[some 4], [some 5], [some 6]]⟩

/-- A three-row, two-column gap-filled numeric grid. -/
def dwEx : List (List Rat) := [[1, 0], [2, 0], [3, 0]]

/-- A table with three rows of which exactly two are complete. -/
def uEx : DataFrame :=
  ⟨["a", "b"], [0, 1, 2], [[some 1, some 2], [some 3, none], [some 4, some 5]]⟩

/-- `knn` upsampling with `n_neighbors = 5`, more than the complete rows of `uEx`. -/
def pKnn5 : Param := ⟨"knn", 5, 2, 1, 1, 1, "train"⟩

/-- `knn` upsampling with the out-of-range `n_neighbors = 0`. -/
def pKnn0 : Param := ⟨"knn", 0, 2, 1, 1, 1, "train"⟩

/-- `mean` upsampling. -/
def pMean : Param := ⟨"mean", 5, 2, 1, 1, 1, "train"⟩

/-- A two-row table with one missing cell (not fully coincident). -/
def vEx : DataFrame := ⟨["a", "b"], [3, 4], [[some 1, some 2], [some 3, none]]⟩

/-- C1: on a configuration whose strategy identifier matches none of
`up`/`down`/`RNN_AE`, `Alignment.getResult` does NOT raise an
`UnknownStrategyError` (no such type exists in the code): it prints
`'Not Available'` and then raises `UnboundLocalError` at `return result`.
No output table is produced and no checkpoint is written, but the claimed
error type and the no-print requirement are both violated. -/
theorem c1_unknown_strategy_prints_then_unbound_local :
    (getResult f0 rep0 ⟨"unknown", pEx⟩ tEx []).printed = ["Not Available"]
  ∧ (getResult f0 rep0 ⟨"unknown", pEx⟩ tEx []).result = Except.error PyErr.unboundLocal
  ∧ (getResult f0 rep0 ⟨"unknown", pEx⟩ tEx []).fs = [] :=
  ⟨rfl, rfl, rfl⟩

/-- C2 (counterexample): on two frames with disjoint index ranges
(`max(min1,min2) = 20 > 2 = min(max1,max2)`), `Alignment.getOverlapData`
raises nothing — it returns a table (with zero rows), refuting the claim
that it raises `EmptyOverlapError` instead of returning a table.  Every
step of the source on this path is total: `iloc` slicing with an empty
range returns an empty frame. -/
theorem c2_disjoint_ranges_return_a_table :
    min (idxMax dx1) (idxMax dx2) < max (idxMin dx1) (idxMin dx2)
  ∧ (getOverlapData dx1 dx2).index = []
  ∧ (getOverlapData dx1 dx2).data = [] :=
  ⟨by decide, rfl, rfl⟩

/-- C2 (amended): for every pair of frames with nonempty, disjoint index
ranges, `Alignment.getOverlapData` returns an empty table (no rows) rather
than raising `EmptyOverlapError`. -/
theorem c2_amended_disjoint_ranges_yield_empty_table (x1 x2 : DataFrame)
    (h1 : x1.index ≠ []) (h2 : x2.index ≠ [])
    (hd : min (idxMax x1) (idxMax x2) < max (idxMin x1) (idxMin x2)) :
    (getOverlapData x1 x2).index = [] ∧ (getOverlapData x1 x2).data = [] := by
  have h0 : min (idxMax x1) (idxMax x2) + 1 - max (idxMin x1) (idxMin x2) = 0 := by omega
  constructor <;> simp [getOverlapData, h0]

/-- Witness for C2's amended theorem at the concrete disjoint pair. -/
theorem c2_amended_witness :
    (getOverlapData dx1 dx2).index = [] ∧ (getOverlapData dx1 dx2).data = [] :=
  c2_amended_disjoint_ranges_yield_empty_table dx1 dx2 (by decide) (by decide) (by decide)

/-- C3: `Alignment.getOverlapData` slices the outer join POSITIONALLY
(`iloc`) with bounds that are index VALUES, so it does not equal the outer
join restricted to the index-value range `[max(min1,min2), min(max1,max2)]`
— the contract its own docstring states.  At the failing input the bounds
are 11 and 12, the label restriction `specOverlapData` keeps the two rows
at labels 11 and 12, but the code returns an empty table. -/
theorem c3_positional_slice_contradicts_label_contract :
    max (idxMin cx1) (idxMin cx2) = 11
  ∧ min (idxMax cx1) (idxMax cx2) = 12
  ∧ (getOverlapData cx1 cx2).index = []
  ∧ (getOverlapData cx1 cx2).data = []
  ∧ (specOverlapData cx1 cx2).index = [11, 12]
  ∧ (specOverlapData cx1 cx2).data = [[some 2, some 4], [some 3, some 5]] :=
  ⟨by decide, by decide, rfl, rfl, by decide, by decide⟩

/-- C4: for a gap-filled `N`-row table and `0 < w < N`, the window list of
`Alignment.get_loaders` has exactly `N - w` windows; the window at offset
`i` is the slice of rows `i..i+w-1`; every window has `w` rows of the
table's column width; and a second enumeration pass of the loader yields
the same content (the dataset is materialised once). -/
theorem c4_window_builder_count_shape_restart (data : List (List Rat)) (C w : Nat)
    (hw : 0 < w) (hwN : w < data.length) (hc : ∀ r ∈ data, r.length = C) :
    (get_loaders data w).length = data.length - w
  ∧ (∀ i, i < data.length - w → (get_loaders data w)[i]? = some ((data.drop i).take w))
  ∧ (∀ win ∈ get_loaders data w, win.length = w ∧ ∀ r ∈ win, r.length = C)
  ∧ inferencePass data w 0 = inferencePass data w 1 := by
  refine ⟨by simp [get_loaders], ?_, ?_, rfl⟩
  · intro i hi
    simp [get_loaders, List.getElem?_map, List.getElem?_range, hi]
  · intro win hwin
    simp only [get_loaders, List.mem_map, List.mem_range] at hwin
    obtain ⟨i, hi, rfl⟩ := hwin
    constructor
    · rw [List.length_take, List.length_drop]
      omega
    · intro r hr
      exact hc r (List.mem_of_mem_drop (List.mem_of_mem_take hr))

/-- Witness for C4 at the concrete three-row grid with `w = 2`. -/
theorem c4_witness :
    (get_loaders dwEx 2).length = dwEx.length - 2
  ∧ (get_loaders dwEx 2)[0]? = some ((dwEx.drop 0).take 2) :=
  ⟨(c4_window_builder_count_shape_restart dwEx 2 2 (by decide) (by decide) (by decide)).1,
   (c4_window_builder_count_shape_restart dwEx 2 2 (by decide) (by decide) (by decide)).2.1 0
     (by decide)⟩

/-- C5 (counterexample): with `window_size ≥ rows` (here 3 and 5 against a
3-row grid), `Alignment.get_loaders` raises no `InvalidWindowSizeError`
(no such type exists in the code): `range(len(data) - window_size)` is
empty, so it returns an empty window sequence; every later step
(`np.array([])`, `TensorDataset`, `DataLoader`) accepts the empty data. -/
theorem c5_large_window_yields_empty_sequence :
    get_loaders dwEx 3 = [] ∧ get_loaders dwEx 5 = [] :=
  ⟨rfl, rfl⟩

/-- C5 (amended): for every grid and every `window_size ≥ rows`,
`Alignment.get_loaders` produces the empty window sequence and raises
nothing. -/
theorem c5_amended_large_window_empty (data : List (List Rat)) (w : Nat)
    (h : data.length ≤ w) : get_loaders data w = [] := by
  have h0 : data.length - w = 0 := by omega
  simp [get_loaders, h0]

/-- Witness for C5's amended theorem at `w = 4` on the three-row grid. -/
theorem c5_amended_witness : get_loaders dwEx 4 = [] :=
  c5_amended_large_window_empty dwEx 4 (by decide)

/-- Membership after `insertPath`: the inserted path is present. -/
theorem mem_insertPath_self (fs : List String) (p : String) : p ∈ insertPath fs p := by
  by_cases h : p ∈ fs <;> simp [insertPath, h]

/-- Membership after `insertPath`: existing paths stay present. -/
theorem mem_insertPath_of_mem (fs : List String) (p q : String) (h : q ∈ fs) :
    q ∈ insertPath fs p := by
  by_cases hp : p ∈ fs <;> simp [insertPath, hp, h]

/-- C6: for every successful embedding run (trainer modelled from the spec:
`represent` returns one `emb_dim`-wide vector per window, the `models`
package being absent from the source tree), `Alignment.RNN_AE` returns the
frame whose columns are `concat_emb1..concat_emb{emb_dim}` (`emb_dim` of
them), whose data has `overlap_rows - window_size` rows each of width
`emb_dim`, and whose row index is the overlap index with its first
`window_size` entries dropped. -/
theorem c6_rnn_ae_output_shape (represent : List (List Rat) → List Rat)
    (t : DataFrame) (p : Param) (fs0 : List String)
    (hwf : t.index.length = t.data.length)
    (hw : p.window_size < t.data.length)
    (hrep : ∀ win, (represent win).length = p.emb_dim) :
    (RNN_AE represent t p fs0).result =
      Except.ok { cols := concatEmbCols p.emb_dim
                  index := t.index.drop p.window_size
                  data := (get_representation represent
                             (get_loaders (fillna0 t) p.window_size)).map
                            (fun r => r.map some) }
  ∧ ((get_representation represent (get_loaders (fillna0 t) p.window_size)).map
       (fun r => r.map some)).length = t.data.length - p.window_size
  ∧ (t.index.drop p.window_size).length = t.data.length - p.window_size
  ∧ (concatEmbCols p.emb_dim).length = p.emb_dim
  ∧ ∀ r ∈ (get_representation represent (get_loaders (fillna0 t) p.window_size)).map
        (fun r => r.map some), r.length = p.emb_dim := by
  refine ⟨rfl, ?_, ?_, ?_, ?_⟩
  · simp [get_representation, get_loaders, fillna0]
  · simp [hwf]
  · simp [concatEmbCols]
  · intro r hr
    simp only [get_representation, List.map_map, List.mem_map] at hr
    obtain ⟨win, _, rfl⟩ := hr
    simp [hrep]

/-- Witness for C6 at a concrete table, parameter set and stub trainer. -/
theorem c6_witness :
    ((get_representation rep0 (get_loaders (fillna0 tEx) pEx.window_size)).map
       (fun r => r.map some)).length = tEx.data.length - pEx.window_size
  ∧ (concatEmbCols pEx.emb_dim).length = pEx.emb_dim :=
  ⟨(c6_rnn_ae_output_shape rep0 tEx pEx [] rfl (by decide) (fun _ => rfl)).2.1,
   (c6_rnn_ae_output_shape rep0 tEx pEx [] rfl (by decide) (fun _ => rfl)).2.2.2.1⟩

/-- C7: after every `Alignment.RNN_AE` run in `train` mode that returns
normally, the filesystem contains the fixed checkpoint path
`checkpoints/best_model.pt` (the opaque trained weights written by
`torch.save`) and the `checkpoints` directory, whether or not either
existed before the call, and the frame is returned normally. -/
theorem c7_checkpoint_written_in_train_mode (represent : List (List Rat) → List Rat)
    (t : DataFrame) (p : Param) (fs0 : List String) (hmode : p.mode = "train") :
    "checkpoints/best_model.pt" ∈ (RNN_AE represent t p fs0).fs
  ∧ "checkpoints" ∈ (RNN_AE represent t p fs0).fs
  ∧ (RNN_AE represent t p fs0).result =
      Except.ok { cols := concatEmbCols p.emb_dim
                  index := t.index.drop p.window_size
                  data := (get_representation represent
                             (get_loaders (fillna0 t) p.window_size)).map
                            (fun r => r.map some) } :=
  ⟨mem_insertPath_self _ _,
   mem_insertPath_of_mem _ _ _ (mem_insertPath_self _ _),
   rfl⟩

/-- Witness for C7 on an initially empty filesystem. -/
theorem c7_witness :
    "checkpoints/best_model.pt" ∈ (RNN_AE rep0 tEx pEx []).fs
  ∧ "checkpoints" ∈ (RNN_AE rep0 tEx pEx []).fs :=
  ⟨(c7_checkpoint_written_in_train_mode rep0 tEx pEx [] rfl).1,
   (c7_checkpoint_written_in_train_mode rep0 tEx pEx [] rfl).2.1⟩

/-- C8 (counterexample): `uEx` has exactly two complete rows, yet `knn`
upsampling with `n_neighbors = 5 > 2` raises no `InvalidParameterError` —
it returns a table (the imputer silently uses the available neighbors). -/
theorem c8_excess_neighbors_raise_nothing :
    (uEx.data.filter (fun r => r.all Option.isSome)).length = 2
  ∧ pKnn5.n_neighbors = 5
  ∧ (upsampling f0 uEx pKnn5).2 =
      Except.ok { cols := uEx.cols
                  index := [0, 1, 2]
                  data := [[some 1, some 2], [some 3, some 0], [some 4, some 5]] } :=
  ⟨by decide, rfl, rfl⟩

/-- C8 (amended): `Alignment.upsampling` itself validates nothing; on the
`knn` branch the outcome is decided inside the external sklearn
`KNNImputer`, whose parameter validation rejects `n_neighbors < 1` and
which accepts any larger count (using the available neighbors) — so the
call errs exactly when `n_neighbors < 1`, regardless of how many
non-missing rows exist. -/
theorem c8_amended_error_iff_nonpositive_neighbors (fill : Nat → Nat → Rat)
    (t : DataFrame) (p : Param) (hm : p.method = "knn") :
    (p.n_neighbors < 1 → (upsampling fill t p).2 = Except.error PyErr.skInvalidParameter)
  ∧ (1 ≤ p.n_neighbors →
      (upsampling fill t p).2 =
        Except.ok { cols := t.cols
                    index := List.range t.data.length
                    data := (t.data.enum.map fun pr =>
                               pr.2.enum.map fun q => q.2.getD (fill pr.1 q.1)).map
                              (fun r => r.map some) }) := by
  constructor
  · intro hn
    simp [upsampling, hm, knnImpute, hn]
  · intro hn
    have hn' : ¬ p.n_neighbors < 1 := by omega
    simp [upsampling, hm, knnImpute, hn']

/-- Witness for C8's amended theorem: `n_neighbors = 0` does err. -/
theorem c8_witness :
    (upsampling f0 uEx pKnn0).2 = Except.error PyErr.skInvalidParameter :=
  (c8_amended_error_iff_nonpositive_neighbors f0 uEx pKnn0 rfl).1 (by decide)

/-- Filtering the index-row pairs of a frame by a row predicate keeps as
many entries as filtering the rows alone, when index and data have equal
length. -/
theorem filter_zip_snd_length (q : List (Option Rat) → Bool) :
    ∀ (a : List Nat) (b : List (List (Option Rat))), a.length = b.length →
      ((a.zip b).filter (fun pr => q pr.2)).length = (b.filter q).length
  | [], [], _ => rfl
  | [], _ :: _, h => by simp at h
  | _ :: _, [], h => by simp at h
  | x :: xs, y :: ys, h => by
    have ih := filter_zip_snd_length q xs ys (by simpa using h)
    by_cases hq : q y
    · simp [List.zip_cons_cons, List.filter_cons, hq, ih]
    · simp [List.zip_cons_cons, List.filter_cons, hq, ih]

/-- A filter keeps every element exactly when the predicate holds on all of
them. -/
theorem filter_length_eq_length_iff {α : Type} (p : α → Bool) :
    ∀ (l : List α), (l.filter p).length = l.length ↔ ∀ x ∈ l, p x
  | [] => by simp
  | x :: xs => by
    have hle := List.length_filter_le p xs
    have ih := filter_length_eq_length_iff p xs
    by_cases hp : p x
    · simp [List.filter_cons, hp, ih]
    · rw [List.filter_cons, if_neg (by simp [hp]), List.length_cons]
      constructor
      · intro h
        exfalso
        omega
      · intro h
        exact absurd (h x (List.mem_cons_self x xs)) (by simp [hp])

/-- C9 (counterexample): on the overlap table `vEx`, which is NOT fully
coincident (its second row has a missing cell), the upsample output still
has exactly as many rows as the overlap table — so "equality only in the
fully-coincident-index case" fails for the second inequality. -/
theorem c9_upsample_equals_overlap_without_coincidence :
    upRows f0 vEx pMean = vEx.data.length ∧ fullyCoincident vEx = false :=
  ⟨by decide, by decide⟩

/-- C9 (amended): for every overlap table (index and data of equal length)
and valid upsample parameters (`knn` with `n_neighbors ≥ 1`, or `mean`),
the downsample row count is at most the upsample row count, the upsample
row count ALWAYS equals the overlap row count (imputation never drops
rows), and the downsample count reaches the overlap count exactly in the
fully-coincident case. -/
theorem c9_amended_rowcount_relation (fill : Nat → Nat → Rat) (t : DataFrame) (p : Param)
    (hwf : t.index.length = t.data.length)
    (hm : p.method = "knn" ∧ 1 ≤ p.n_neighbors ∨ p.method = "mean") :
    (downsampling t).data.length ≤ upRows fill t p
  ∧ upRows fill t p = t.data.length
  ∧ ((downsampling t).data.length = t.data.length ↔ fullyCoincident t = true) := by
  have hup : upRows fill t p = t.data.length := by
    rcases hm with ⟨hk, hn⟩ | hmean
    · have hn' : ¬ p.n_neighbors < 1 := by omega
      simp [upRows, upsampling, hk, knnImpute, hn']
    · simp [upRows, upsampling, hmean, fillnaMean]
  have hdown : (downsampling t).data.length =
      (t.data.filter (fun r => r.all Option.isSome)).length := by
    simp only [downsampling, List.length_map]
    exact filter_zip_snd_length (fun r => r.all Option.isSome) t.index t.data hwf
  refine ⟨?_, hup, ?_⟩
  · rw [hdown, hup]
    exact List.length_filter_le _ _
  · rw [hdown]
    rw [filter_length_eq_length_iff]
    unfold fullyCoincident
    rw [List.all_eq_true]

/-- Witness for C9's amended theorem at a concrete table and parameters. -/
theorem c9_witness :
    (downsampling vEx).data.length ≤ upRows f0 vEx pMean
  ∧ upRows f0 vEx pMean = vEx.data.length
  ∧ ((downsampling vEx).data.length = vEx.data.length ↔ fullyCoincident vEx = true) :=
  c9_amended_rowcount_relation f0 vEx pMean rfl (Or.inr rfl)

/-- C10: on any overlap table with a missing cell, the `knn` branch of
`Alignment.upsampling` returns a frame carrying the fresh positional index
`0..n-1` (`pd.DataFrame` built without `index=`), while the `mean` branch
preserves the overlap table's time index. -/
theorem c10_knn_discards_index_mean_preserves (fill : Nat → Nat → Rat) (t : DataFrame)
    (pk pm : Param) (hk : pk.method = "knn") (hn : 1 ≤ pk.n_neighbors)
    (hm : pm.method = "mean") (hmiss : fullyCoincident t = false) :
    upIndex fill t pk = List.range t.data.length ∧ upIndex fill t pm = t.index := by
  constructor
  · have hn' : ¬ pk.n_neighbors < 1 := by omega
    simp [upIndex, upsampling, hk, knnImpute, hn']
  · simp [upIndex, upsampling, hm, fillnaMean]

/-- Witness for C10 at the concrete table with a missing cell. -/
theorem c10_witness :
    upIndex f0 vEx pKnn5 = List.range vEx.data.length ∧ upIndex f0 vEx pMean = vEx.index :=
  c10_knn_discards_index_mean_preserves f0 vEx pKnn5 pMean rfl (by decide) rfl (by decide)
